import Mathlib

/-!
# 3d-rotation: transform composition and 4x4 matrix product

A shallow embedding of `src/matrix.hpp` (`operator*`) and of the transform
composition of `DrawModelPro` and the GUI loop of `main` in `src/main.cpp`.

Scalars: the C++ code computes in `float`.  The embedding is polymorphic in the
scalar type and is read over exact arithmetic (a commutative ring for the
matrix product, a linearly ordered field where the code divides or compares).
Float literals such as `0.1f` are read as the exact rationals they denote.
-/

/-- Mathematical 4x4 matrices over `α` (rows and columns indexed by `Fin 4`). -/
abbrev Mat4 (α : Type) := Matrix (Fin 4) (Fin 4) α

namespace Rotation3D

/-! ## Data model (raylib.h value types) -/

/-- The raylib `Vector3`: three scalar fields. -/
structure Vector3 (α : Type) where
  x : α
  y : α
  z : α
deriving DecidableEq, Repr

/-- The raylib `Quaternion` (a `Vector4`): fields in declaration order x, y, z, w. -/
structure Quaternion (α : Type) where
  x : α
  y : α
  z : α
  w : α
deriving DecidableEq, Repr

/-- The raylib `Matrix`: 16 scalar fields, column-major, declared in the order
m0, m4, m8, m12, m1, m5, m9, m13, m2, m6, m10, m14, m3, m7, m11, m15
(field `m(4*c+r)` is row `r`, column `c`). -/
structure Matrix (α : Type) where
  m0 : α
  m4 : α
  m8 : α
  m12 : α
  m1 : α
  m5 : α
  m9 : α
  m13 : α
  m2 : α
  m6 : α
  m10 : α
  m14 : α
  m3 : α
  m7 : α
  m11 : α
  m15 : α
deriving DecidableEq, Repr

/-- Field access by flat index: `M.get i` is the field `m i` of `M`. -/
def Matrix.get {α : Type} (M : Matrix α) (i : Fin 16) : α :=
  ![M.m0, M.m1, M.m2, M.m3, M.m4, M.m5, M.m6, M.m7,
    M.m8, M.m9, M.m10, M.m11, M.m12, M.m13, M.m14, M.m15] i

/-- Flat index of row `r`, column `c` in the column-major layout: `4*c + r`. -/
def idx (r c : Fin 4) : Fin 16 :=
  ⟨4 * c.val + r.val, by omega⟩

/-- The mathematical matrix a `Matrix` value denotes: entry (r, c) is the field
`m(4*c+r)`. -/
def Matrix.toMat4 {α : Type} (M : Matrix α) : Mat4 α :=
  fun r c => M.get (idx r c)

/-! ## `src/matrix.hpp` -/

/-- The `operator *` of `src/matrix.hpp`, lines 20-45, field by field. -/
def Matrix.mul {α : Type} [Add α] [Mul α] (a b : Matrix α) : Matrix α where
  m0 := a.m0 * b.m0 + a.m4 * b.m1 + a.m8 * b.m2 + a.m12 * b.m3
  m1 := a.m1 * b.m0 + a.m5 * b.m1 + a.m9 * b.m2 + a.m13 * b.m3
  m2 := a.m2 * b.m0 + a.m6 * b.m1 + a.m10 * b.m2 + a.m14 * b.m3
  m3 := a.m3 * b.m0 + a.m7 * b.m1 + a.m11 * b.m2 + a.m15 * b.m3
  m4 := a.m0 * b.m4 + a.m4 * b.m5 + a.m8 * b.m6 + a.m12 * b.m7
  m5 := a.m1 * b.m4 + a.m5 * b.m5 + a.m9 * b.m6 + a.m13 * b.m7
  m6 := a.m2 * b.m4 + a.m6 * b.m5 + a.m10 * b.m6 + a.m14 * b.m7
  m7 := a.m3 * b.m4 + a.m7 * b.m5 + a.m11 * b.m6 + a.m15 * b.m7
  m8 := a.m0 * b.m8 + a.m4 * b.m9 + a.m8 * b.m10 + a.m12 * b.m11
  m9 := a.m1 * b.m8 + a.m5 * b.m9 + a.m9 * b.m10 + a.m13 * b.m11
  m10 := a.m2 * b.m8 + a.m6 * b.m9 + a.m10 * b.m10 + a.m14 * b.m11
  m11 := a.m3 * b.m8 + a.m7 * b.m9 + a.m11 * b.m10 + a.m15 * b.m11
  m12 := a.m0 * b.m12 + a.m4 * b.m13 + a.m8 * b.m14 + a.m12 * b.m15
  m13 := a.m1 * b.m12 + a.m5 * b.m13 + a.m9 * b.m14 + a.m13 * b.m15
  m14 := a.m2 * b.m12 + a.m6 * b.m13 + a.m10 * b.m14 + a.m14 * b.m15
  m15 := a.m3 * b.m12 + a.m7 * b.m13 + a.m11 * b.m14 + a.m15 * b.m15

instance {α : Type} [Add α] [Mul α] : Mul (Matrix α) := ⟨Matrix.mul⟩

/-! ## raymath.h helpers that only build constant-shaped matrices -/

/-- Modelled from the spec: `MatrixIdentity` of raymath.h (not among the
sources); the identity matrix, m0 = m5 = m10 = m15 = 1 and every other field 0. -/
def MatrixIdentity {α : Type} [Zero α] [One α] : Matrix α where
  m0 := 1
  m4 := 0
  m8 := 0
  m12 := 0
  m1 := 0
  m5 := 1
  m9 := 0
  m13 := 0
  m2 := 0
  m6 := 0
  m10 := 1
  m14 := 0
  m3 := 0
  m7 := 0
  m11 := 0
  m15 := 1

/-- Modelled from the spec: `MatrixTranslate` of raymath.h (not among the
sources); the spec's `Translate(position)`: the identity matrix with the offset
in the translation fields m12, m13, m14. -/
def MatrixTranslate {α : Type} [Zero α] [One α] (x y z : α) : Matrix α where
  m0 := 1
  m4 := 0
  m8 := 0
  m12 := x
  m1 := 0
  m5 := 1
  m9 := 0
  m13 := y
  m2 := 0
  m6 := 0
  m10 := 1
  m14 := z
  m3 := 0
  m7 := 0
  m11 := 0
  m15 := 1

/-- Modelled from the spec: `MatrixScale` of raymath.h (not among the sources);
the spec's `Scale(scale)`: the diagonal matrix with the three factors on the
diagonal and m15 = 1. -/
def MatrixScale {α : Type} [Zero α] [One α] (x y z : α) : Matrix α where
  m0 := x
  m4 := 0
  m8 := 0
  m12 := 0
  m1 := 0
  m5 := y
  m9 := 0
  m13 := 0
  m2 := 0
  m6 := 0
  m10 := z
  m14 := 0
  m3 := 0
  m7 := 0
  m11 := 0
  m15 := 1

/-- The all-zero matrix: the value of the C++ initialiser `Matrix m = {}`. -/
def Matrix.zero {α : Type} [Zero α] : Matrix α where
  m0 := 0
  m4 := 0
  m8 := 0
  m12 := 0
  m1 := 0
  m5 := 0
  m9 := 0
  m13 := 0
  m2 := 0
  m6 := 0
  m10 := 0
  m14 := 0
  m3 := 0
  m7 := 0
  m11 := 0
  m15 := 0

/-! ## libm and raymath.h

`sqrtf`, `sinf`, `cosf`, `asinf`, `acosf` and `atan2f` come from the C library.
They are taken as a parameter `L : LibM α`, so that every definition below is
computable; the theorems fix `L` to the real functions through `IsRealMath`.

The float division `a / b` of the raymath routines is the field `fdiv` of the
same parameter.  `IsRealMath` fixes it only at non-zero divisors, so a result
proved for every such `L` does not depend on what a division by zero yields. -/

/-- The C library functions the raymath routines call, and the float division. -/
structure LibM (α : Type) where
  sqrtf : α → α
  sinf : α → α
  cosf : α → α
  asinf : α → α
  acosf : α → α
  atan2f : α → α → α
  fdiv : α → α → α

/-- The library functions are the real ones: square root, sine, cosine, arcsine,
arccosine, and `atan2f y x` the argument of the point `(x, y)` (0 at the origin,
as C's `atan2f(0, 0)`); the division is the real division wherever the divisor
is not zero. -/
def IsRealMath (L : LibM ℝ) : Prop :=
  L.sqrtf = Real.sqrt ∧ L.sinf = Real.sin ∧ L.cosf = Real.cos ∧
  L.asinf = Real.arcsin ∧ L.acosf = Real.arccos ∧
  (L.atan2f = fun y x => Complex.arg ⟨x, y⟩) ∧
  ∀ a b : ℝ, b ≠ 0 → L.fdiv a b = a / b

section Raymath

variable {α : Type} [LinearOrderedField α]

/-- Modelled from the spec: `QuaternionNormalize` of raymath.h (not among the
sources); divides by the length, and a zero length is replaced by 1 (the
degenerate fallback the spec mentions). -/
def QuaternionNormalize (L : LibM α) (q : Quaternion α) : Quaternion α :=
  let length := L.sqrtf (q.x * q.x + q.y * q.y + q.z * q.z + q.w * q.w)
  let length := if length = 0 then 1 else length
  let ilength := L.fdiv 1 length
  { x := q.x * ilength, y := q.y * ilength, z := q.z * ilength, w := q.w * ilength }

/-- Modelled from the spec: `QuaternionToMatrix` of raymath.h (not among the
sources); the rotation matrix of a quaternion, starting from the identity. -/
def QuaternionToMatrix (q : Quaternion α) : Matrix α :=
  let a2 := q.x * q.x
  let b2 := q.y * q.y
  let c2 := q.z * q.z
  let ac := q.x * q.z
  let ab := q.x * q.y
  let bc := q.y * q.z
  let ad := q.w * q.x
  let bd := q.w * q.y
  let cd := q.w * q.z
  { (MatrixIdentity : Matrix α) with
    m0 := 1 - 2 * (b2 + c2)
    m1 := 2 * (ab + cd)
    m2 := 2 * (ac - bd)
    m4 := 2 * (ab - cd)
    m5 := 1 - 2 * (a2 + c2)
    m6 := 2 * (bc + ad)
    m8 := 2 * (ac + bd)
    m9 := 2 * (bc - ad)
    m10 := 1 - 2 * (a2 + b2) }

/-- Modelled from the spec: `QuaternionToEuler` of raymath.h (not among the
sources); roll (x), pitch (y) and yaw (z) angles of a quaternion, in radians,
the pitch argument clamped to [-1, 1]. -/
def QuaternionToEuler (L : LibM α) (q : Quaternion α) : Vector3 α :=
  let x0 := 2 * (q.w * q.x + q.y * q.z)
  let x1 := 1 - 2 * (q.x * q.x + q.y * q.y)
  let y0 := 2 * (q.w * q.y - q.z * q.x)
  let y0 := if y0 > 1 then 1 else y0
  let y0 := if y0 < -1 then -1 else y0
  let z0 := 2 * (q.w * q.z + q.x * q.y)
  let z1 := 1 - 2 * (q.y * q.y + q.z * q.z)
  { x := L.atan2f x0 x1, y := L.asinf y0, z := L.atan2f z0 z1 }

/-- Modelled from the spec: `MatrixRotateZYX` of raymath.h (not among the
sources); the elemental rotations composed in Z, Y, X order, that is
Rz(angle.z) · Ry(angle.y) · Rx(angle.x). -/
def MatrixRotateZYX (L : LibM α) (angle : Vector3 α) : Matrix α :=
  let cz := L.cosf angle.z
  let sz := L.sinf angle.z
  let cy := L.cosf angle.y
  let sy := L.sinf angle.y
  let cx := L.cosf angle.x
  let sx := L.sinf angle.x
  { m0 := cz * cy
    m4 := cz * sy * sx - cx * sz
    m8 := sz * sx + cz * cx * sy
    m12 := 0
    m1 := cy * sz
    m5 := cz * cx + sz * sy * sx
    m9 := cx * sz * sy - cz * sx
    m13 := 0
    m2 := -sy
    m6 := cy * sx
    m10 := cy * cx
    m14 := 0
    m3 := 0
    m7 := 0
    m11 := 0
    m15 := 1 }

/-- Modelled from the spec: `QuaternionToAxisAngle` of raymath.h (not among the
sources); decomposes a quaternion into an axis and an angle.  A quaternion with
|w| > 1 is normalized first; when the sine of the half angle is (nearly) zero
the axis falls back to (1, 0, 0).  Returns the two out-parameters as a pair. -/
def QuaternionToAxisAngle (L : LibM α) (q : Quaternion α) : Vector3 α × α :=
  let q : Quaternion α :=
    if |q.w| > 1 then
      let length := L.sqrtf (q.x * q.x + q.y * q.y + q.z * q.z + q.w * q.w)
      let length := if length = 0 then 1 else length
      let ilength := L.fdiv 1 length
      { x := q.x * ilength, y := q.y * ilength, z := q.z * ilength, w := q.w * ilength }
    else q
  let resAngle := 2 * L.acosf q.w
  let den := L.sqrtf (1 - q.w * q.w)
  let resAxis : Vector3 α :=
    if den > 1 / 10000 then
      { x := L.fdiv q.x den, y := L.fdiv q.y den, z := L.fdiv q.z den }
    else { x := 1, y := 0, z := 0 }
  (resAxis, resAngle)

/-- Modelled from the spec: `QuaternionFromAxisAngle` of raymath.h (not among
the sources); rebuilds a quaternion from an axis and an angle.  A zero-length
axis yields the identity quaternion (0, 0, 0, 1). -/
def QuaternionFromAxisAngle (L : LibM α) (axis : Vector3 α) (angle : α) : Quaternion α :=
  let axisLength := L.sqrtf (axis.x * axis.x + axis.y * axis.y + axis.z * axis.z)
  if axisLength ≠ 0 then
    let angle := angle * (1 / 2)
    let length := L.sqrtf (axis.x * axis.x + axis.y * axis.y + axis.z * axis.z)
    let length := if length = 0 then 1 else length
    let ilength := L.fdiv 1 length
    let axis : Vector3 α :=
      { x := axis.x * ilength, y := axis.y * ilength, z := axis.z * ilength }
    let sinres := L.sinf angle
    let cosres := L.cosf angle
    let q : Quaternion α :=
      { x := axis.x * sinres, y := axis.y * sinres, z := axis.z * sinres, w := cosres }
    let length := L.sqrtf (q.x * q.x + q.y * q.y + q.z * q.z + q.w * q.w)
    let length := if length = 0 then 1 else length
    let ilength := L.fdiv 1 length
    { x := q.x * ilength, y := q.y * ilength, z := q.z * ilength, w := q.w * ilength }
  else { x := 0, y := 0, z := 0, w := 1 }

/-- Modelled from the spec: `Vector3Transform` of raymath.h (not among the
sources); the image of the point `v` under the affine transform `mat`. -/
def Vector3Transform (v : Vector3 α) (mat : Matrix α) : Vector3 α where
  x := mat.m0 * v.x + mat.m4 * v.y + mat.m8 * v.z + mat.m12
  y := mat.m1 * v.x + mat.m5 * v.y + mat.m9 * v.z + mat.m13
  z := mat.m2 * v.x + mat.m6 * v.y + mat.m10 * v.z + mat.m14

/-! ## `DrawModelPro` (`src/main.cpp`, lines 34-73) -/

/-- The local `rotationMatrix` of `DrawModelPro` (lines 45-60): zero-initialised,
then set according to the mode string; a mode other than the three leaves it
all-zero. -/
def DrawModelPro.rotationMatrix (L : LibM α) (rotation : Quaternion α) (mode : String) :
    Matrix α :=
  if mode = "ZYX Euler" then
    MatrixRotateZYX L (QuaternionToEuler L (QuaternionNormalize L rotation))
  else if mode = "Quaternion" then
    QuaternionToMatrix (QuaternionNormalize L rotation)
  else if mode = "Axis Angle" then
    let va := QuaternionToAxisAngle L rotation
    QuaternionToMatrix (QuaternionFromAxisAngle L va.1 va.2)
  else Matrix.zero

/-- The local `transformMatrix` of `DrawModelPro` (lines 43 and 62): the scale
argument is first multiplied by `0.1f`, then the three matrices are multiplied
left to right. -/
def DrawModelPro.transformMatrix (L : LibM α) (position : Vector3 α)
    (rotation : Quaternion α) (scale : α) (mode : String) : Matrix α :=
  let scale := scale * (1 / 10)
  MatrixTranslate position.x position.y position.z
    * DrawModelPro.rotationMatrix L rotation mode
    * MatrixScale scale scale scale

/-! ## The GUI loop of `main` (`src/main.cpp`, lines 88-332) -/

/-- The `Light` of rlights.hpp, reduced to the field the loop edits. -/
structure Light (α : Type) where
  position : Vector3 α
deriving DecidableEq

/-- Modelled from the spec: `CreateLight` of rlights.hpp (not among the
sources); the light descriptor is created at the position passed in. -/
def CreateLight (position : Vector3 α) : Light α :=
  { position := position }

/-- The editable parameters that live across frames (locals of `main`). -/
structure DemoState (α : Type) where
  boxPos : Vector3 α
  boxRotation : Quaternion α
  boxScale : α
  light : Light α
  lightSpeed : α
  selectedMode : Nat

/-- What the outside world contributes to one frame: the point on the circle
`UpdateLightPos` computes from the clock, the dropdown selection after
`GuiDropdownBox`, the value each `GuiSliderBar` call returns (keyed by its
label, given the current value and the bounds), and whether RESET is pressed. -/
structure FrameInput (α : Type) where
  dx : α
  dz : α
  dropdown : Nat
  GuiSliderBar : String → α → α → α → α
  GuiButton : Bool

/-- State of `main` when the loop is entered (lines 105-132). -/
def initialState : DemoState α where
  boxPos := { x := 0, y := 0, z := 0 }
  boxRotation := { x := 0, y := 0, z := 0, w := 0 }
  boxScale := 1
  light := CreateLight { x := 4, y := 4, z := -2 }
  lightSpeed := 2
  selectedMode := 0

/-- The array `strRotationMode` (line 135), indexed by the dropdown selection. -/
def strRotationMode (i : Nat) : String :=
  match i with
  | 0 => "ZYX Euler"
  | 1 => "Quaternion"
  | 2 => "Axis Angle"
  | _ => ""

/-- `UpdateLightPos` (lines 75-86): x and z move on the circle, y is kept. -/
def UpdateLightPos (light : Light α) (dx dz : α) : Light α :=
  { light with position := { x := dx, y := light.position.y, z := dz } }

/-- One iteration of the main loop (lines 139-324) on the editable parameters. -/
def frame (s : DemoState α) (i : FrameInput α) : DemoState α :=
  let s := { s with light := UpdateLightPos s.light i.dx i.dz }
  let s := { s with selectedMode := i.dropdown }
  let s :=
    if strRotationMode s.selectedMode = "ZYX Euler" then
      let s := { s with boxPos := { s.boxPos with x := i.GuiSliderBar "PosX" s.boxPos.x (-10) 10 } }
      let s := { s with boxPos := { s.boxPos with y := i.GuiSliderBar "PosY" s.boxPos.y (-10) 10 } }
      let s := { s with boxPos := { s.boxPos with z := i.GuiSliderBar "PosZ" s.boxPos.z (-10) 10 } }
      let s := { s with boxRotation :=
        { s.boxRotation with x := i.GuiSliderBar "RotX" s.boxRotation.x (-180) 180 } }
      let s := { s with boxRotation :=
        { s.boxRotation with y := i.GuiSliderBar "RotY" s.boxRotation.y (-180) 180 } }
      let s := { s with boxRotation :=
        { s.boxRotation with z := i.GuiSliderBar "RotZ" s.boxRotation.z (-180) 180 } }
      let s := { s with boxScale := i.GuiSliderBar "Scale" s.boxScale 1 8 }
      let s := { s with lightSpeed := i.GuiSliderBar "LSpeed" s.lightSpeed (1 / 5) 2 }
      { s with light := { s.light with position :=
          { s.light.position with
            y := i.GuiSliderBar "LHeight" s.light.position.y (-2) 5 } } }
    else if strRotationMode s.selectedMode = "Quaternion"
        ∨ strRotationMode s.selectedMode = "Axis Angle" then
      let s := { s with boxPos := { s.boxPos with x := i.GuiSliderBar "PosX" s.boxPos.x (-10) 10 } }
      let s := { s with boxPos := { s.boxPos with y := i.GuiSliderBar "PosY" s.boxPos.y (-10) 10 } }
      let s := { s with boxPos := { s.boxPos with z := i.GuiSliderBar "PosZ" s.boxPos.z (-10) 10 } }
      let s := { s with boxRotation :=
        { s.boxRotation with w := i.GuiSliderBar "RotW" s.boxRotation.w (-180) 180 } }
      let s := { s with boxRotation :=
        { s.boxRotation with x := i.GuiSliderBar "RotX" s.boxRotation.x (-180) 180 } }
      let s := { s with boxRotation :=
        { s.boxRotation with y := i.GuiSliderBar "RotY" s.boxRotation.y (-180) 180 } }
      let s := { s with boxRotation :=
        { s.boxRotation with z := i.GuiSliderBar "RotZ" s.boxRotation.z (-180) 180 } }
      let s := { s with boxScale := i.GuiSliderBar "Scale" s.boxScale 1 8 }
      let s := { s with lightSpeed := i.GuiSliderBar "LSpeed" s.lightSpeed (1 / 5) 2 }
      { s with light := { s.light with position :=
          { s.light.position with
            y := i.GuiSliderBar "LHeight" s.light.position.y (-2) 5 } } }
    else s
  if i.GuiButton then
    { s with
      boxPos := { x := 0, y := 0, z := 0 }
      boxRotation := { x := 0, y := 0, z := 0, w := 0 }
      boxScale := 1
      lightSpeed := 2
      light := { s.light with position := { s.light.position with y := 4 } } }
  else s

/-- The state after running the loop over a sequence of frames. -/
def run (inputs : List (FrameInput α)) : DemoState α :=
  inputs.foldl frame initialState

/-- Every slider call returns a value inside the bounds it was given. -/
def SliderInRange (i : FrameInput α) : Prop :=
  ∀ (label : String) (value lo hi : α), lo ≤ hi →
    lo ≤ i.GuiSliderBar label value lo hi ∧ i.GuiSliderBar label value lo hi ≤ hi

/-- Every editable parameter lies within the bounds of its slider. -/
def InBounds (s : DemoState α) : Prop :=
  (-10 ≤ s.boxPos.x ∧ s.boxPos.x ≤ 10) ∧
  (-10 ≤ s.boxPos.y ∧ s.boxPos.y ≤ 10) ∧
  (-10 ≤ s.boxPos.z ∧ s.boxPos.z ≤ 10) ∧
  (-180 ≤ s.boxRotation.x ∧ s.boxRotation.x ≤ 180) ∧
  (-180 ≤ s.boxRotation.y ∧ s.boxRotation.y ≤ 180) ∧
  (-180 ≤ s.boxRotation.z ∧ s.boxRotation.z ≤ 180) ∧
  (-180 ≤ s.boxRotation.w ∧ s.boxRotation.w ≤ 180) ∧
  (1 ≤ s.boxScale ∧ s.boxScale ≤ 8) ∧
  (1 / 5 ≤ s.lightSpeed ∧ s.lightSpeed ≤ 2) ∧
  (-2 ≤ s.light.position.y ∧ s.light.position.y ≤ 5)

instance (s : DemoState α) : Decidable (InBounds s) := by
  unfold InBounds
  infer_instance

end Raymath

/-! ## Shared lemmas -/

theorem Matrix.ext_fields {α : Type} {a b : Matrix α}
    (h0 : a.m0 = b.m0) (h1 : a.m1 = b.m1) (h2 : a.m2 = b.m2) (h3 : a.m3 = b.m3)
    (h4 : a.m4 = b.m4) (h5 : a.m5 = b.m5) (h6 : a.m6 = b.m6) (h7 : a.m7 = b.m7)
    (h8 : a.m8 = b.m8) (h9 : a.m9 = b.m9) (h10 : a.m10 = b.m10) (h11 : a.m11 = b.m11)
    (h12 : a.m12 = b.m12) (h13 : a.m13 = b.m13) (h14 : a.m14 = b.m14)
    (h15 : a.m15 = b.m15) : a = b := by
  cases a
  cases b
  simp only [Matrix.mk.injEq]
  simp_all

theorem mul_def {α : Type} [Add α] [Mul α] (a b : Matrix α) : a * b = Matrix.mul a b := rfl

theorem get_mul {α : Type} [CommRing α] (a b : Matrix α) (r c : Fin 4) :
    (a * b).get (idx r c) = ∑ k : Fin 4, a.get (idx r k) * b.get (idx k c) := by
  rw [Fin.sum_univ_four, mul_def]
  fin_cases r <;> fin_cases c <;> rfl

theorem toMat4_mul {α : Type} [CommRing α] (a b : Matrix α) :
    (a * b).toMat4 = a.toMat4 * b.toMat4 := by
  funext r c
  simp only [Matrix.toMat4, Matrix.mul_apply]
  exact get_mul a b r c

theorem initialState_inBounds {α : Type} [LinearOrderedField α] :
    InBounds (initialState : DemoState α) := by
  simp only [InBounds, initialState, CreateLight]
  norm_num

theorem frame_inBounds {α : Type} [LinearOrderedField α] (s : DemoState α)
    (i : FrameInput α) (hs : InBounds s) (hi : SliderInRange i) : InBounds (frame s i) := by
  obtain ⟨px, py, pz, rx, ry, rz, rw, sc, ls, lh⟩ := hs
  have b10 : ∀ (l : String) (v : α),
      -10 ≤ i.GuiSliderBar l v (-10) 10 ∧ i.GuiSliderBar l v (-10) 10 ≤ 10 :=
    fun l v => hi l v (-10) 10 (by norm_num)
  have b180 : ∀ (l : String) (v : α),
      -180 ≤ i.GuiSliderBar l v (-180) 180 ∧ i.GuiSliderBar l v (-180) 180 ≤ 180 :=
    fun l v => hi l v (-180) 180 (by norm_num)
  have bsc : ∀ (l : String) (v : α),
      1 ≤ i.GuiSliderBar l v 1 8 ∧ i.GuiSliderBar l v 1 8 ≤ 8 :=
    fun l v => hi l v 1 8 (by norm_num)
  have bls : ∀ (l : String) (v : α),
      1 / 5 ≤ i.GuiSliderBar l v (1 / 5) 2 ∧ i.GuiSliderBar l v (1 / 5) 2 ≤ 2 :=
    fun l v => hi l v (1 / 5) 2 (by norm_num)
  have blh : ∀ (l : String) (v : α),
      -2 ≤ i.GuiSliderBar l v (-2) 5 ∧ i.GuiSliderBar l v (-2) 5 ≤ 5 :=
    fun l v => hi l v (-2) 5 (by norm_num)
  have hreset : (-10 : α) ≤ 0 ∧ (0 : α) ≤ 10 ∧ (-180 : α) ≤ 0 ∧ (0 : α) ≤ 180 ∧
      (1 : α) ≤ 8 ∧ (1 / 5 : α) ≤ 2 ∧ (-2 : α) ≤ 4 ∧ (4 : α) ≤ 5 := by norm_num
  obtain ⟨q1, q2, q3, q4, q5, q6, q7, q8⟩ := hreset
  unfold frame InBounds
  by_cases hb : i.GuiButton = true
  · simp only [hb, if_true]
    exact ⟨⟨q1, q2⟩, ⟨q1, q2⟩, ⟨q1, q2⟩, ⟨q3, q4⟩, ⟨q3, q4⟩, ⟨q3, q4⟩, ⟨q3, q4⟩,
      ⟨le_refl 1, q5⟩, ⟨q6, le_refl 2⟩, ⟨q7, q8⟩⟩
  · have hb2 : i.GuiButton = false := by simpa using hb
    simp only [hb2, Bool.false_eq_true, if_false, UpdateLightPos]
    split_ifs
    · exact ⟨b10 _ _, b10 _ _, b10 _ _, b180 _ _, b180 _ _, b180 _ _, rw, bsc _ _,
        bls _ _, blh _ _⟩
    · exact ⟨b10 _ _, b10 _ _, b10 _ _, b180 _ _, b180 _ _, b180 _ _, b180 _ _, bsc _ _,
        bls _ _, blh _ _⟩
    · exact ⟨px, py, pz, rx, ry, rz, rw, sc, ls, lh⟩

theorem foldl_frame_inBounds {α : Type} [LinearOrderedField α]
    (inputs : List (FrameInput α)) (s : DemoState α) (hs : InBounds s)
    (hi : ∀ i ∈ inputs, SliderInRange i) : InBounds (inputs.foldl frame s) := by
  induction inputs generalizing s with
  | nil => exact hs
  | cons i rest ih =>
    simp only [List.foldl_cons]
    apply ih
    · exact frame_inBounds s i hs (hi i (List.mem_cons_self i rest))
    · intro j hj
      exact hi j (List.mem_cons_of_mem i hj)

theorem cos_sin_arg_mk (a b c : ℝ) (hc : 0 < c) (h : a * a + b * b = c * c) :
    Real.cos (Complex.arg ⟨a, b⟩) = a / c ∧ Real.sin (Complex.arg ⟨a, b⟩) = b / c := by
  have habs : Complex.abs ⟨a, b⟩ = c := by
    rw [Complex.abs_apply, Complex.normSq_mk, h, Real.sqrt_mul_self hc.le]
  have hne : (⟨a, b⟩ : ℂ) ≠ 0 := by
    intro h0
    rw [h0, map_zero] at habs
    exact hc.ne habs
  constructor
  · rw [Complex.cos_arg hne, habs]
  · rw [Complex.sin_arg, habs]

theorem euler_key (x y z w t : ℝ) (ht : t = x * x + y * y + z * z + w * w) :
    (t - 2 * (y * y + z * z)) * (2 * (w * y - z * x)) * (2 * (w * x + y * z))
        - t * (t - 2 * (x * x + y * y)) * (2 * (w * z + x * y))
      = 2 * (x * y - w * z) * (t * t - (2 * (w * y - z * x)) * (2 * (w * y - z * x))) ∧
    t * (2 * (w * z + x * y)) * (2 * (w * x + y * z))
        + (t - 2 * (y * y + z * z)) * (t - 2 * (x * x + y * y)) * (2 * (w * y - z * x))
      = 2 * (x * z + w * y) * (t * t - (2 * (w * y - z * x)) * (2 * (w * y - z * x))) ∧
    t * (t - 2 * (y * y + z * z)) * (t - 2 * (x * x + y * y))
        + (2 * (w * z + x * y)) * (2 * (w * y - z * x)) * (2 * (w * x + y * z))
      = (t - 2 * (x * x + z * z)) * (t * t - (2 * (w * y - z * x)) * (2 * (w * y - z * x))) ∧
    (t - 2 * (x * x + y * y)) * (2 * (w * z + x * y)) * (2 * (w * y - z * x))
        - t * (t - 2 * (y * y + z * z)) * (2 * (w * x + y * z))
      = 2 * (y * z - w * x) * (t * t - (2 * (w * y - z * x)) * (2 * (w * y - z * x))) ∧
    (2 * (w * x + y * z)) * (2 * (w * x + y * z))
        + (t - 2 * (x * x + y * y)) * (t - 2 * (x * x + y * y))
      = t * t - (2 * (w * y - z * x)) * (2 * (w * y - z * x)) ∧
    (2 * (w * z + x * y)) * (2 * (w * z + x * y))
        + (t - 2 * (y * y + z * z)) * (t - 2 * (y * y + z * z))
      = t * t - (2 * (w * y - z * x)) * (2 * (w * y - z * x)) := by
  subst ht
  refine ⟨?_, ?_, ?_, ?_, ?_, ?_⟩ <;> ring

theorem rotationMatrix_zyx {α : Type} [LinearOrderedField α] (L : LibM α)
    (rotation : Quaternion α) :
    DrawModelPro.rotationMatrix L rotation "ZYX Euler"
      = MatrixRotateZYX L (QuaternionToEuler L (QuaternionNormalize L rotation)) := by
  simp [DrawModelPro.rotationMatrix]

theorem rotationMatrix_quaternion {α : Type} [LinearOrderedField α] (L : LibM α)
    (rotation : Quaternion α) :
    DrawModelPro.rotationMatrix L rotation "Quaternion"
      = QuaternionToMatrix (QuaternionNormalize L rotation) := by
  simp [DrawModelPro.rotationMatrix]

theorem rotationMatrix_axisAngle {α : Type} [LinearOrderedField α] (L : LibM α)
    (rotation : Quaternion α) :
    DrawModelPro.rotationMatrix L rotation "Axis Angle"
      = QuaternionToMatrix (QuaternionFromAxisAngle L
          (QuaternionToAxisAngle L rotation).1 (QuaternionToAxisAngle L rotation).2) := by
  simp [DrawModelPro.rotationMatrix]

theorem mul_assoc_fields {α : Type} [CommRing α] (a b c : Matrix α) :
    (a * b) * c = a * (b * c) := by
  apply Matrix.ext_fields <;> (simp only [mul_def, Matrix.mul]; ring)

/-! ## Claims about `operator *` -/

/-- C1: over a commutative ring, `operator *` is the standard matrix product in
the column-major layout: for every row r and column c the field m(4*c+r) of
`a * b` is the sum over k of `a.m(4*k+r) * b.m(4*c+k)`. -/
theorem operator_mul_is_standard_product {α : Type} [CommRing α] (a b : Matrix α)
    (r c : Fin 4) :
    (a * b).get (idx r c) = ∑ k : Fin 4, a.get (idx r k) * b.get (idx k c) :=
  get_mul a b r c

/-- C2: the identity matrix is a two-sided unit of `operator *`:
`M * I = M` and `I * M = M` for every matrix M over a commutative ring. -/
theorem operator_mul_identity {α : Type} [CommRing α] (M : Matrix α) :
    M * MatrixIdentity = M ∧ MatrixIdentity * M = M := by
  constructor <;>
    (apply Matrix.ext_fields <;> simp [mul_def, Matrix.mul, MatrixIdentity])

/-- C8: `operator *` is associative over a commutative ring:
`(a * b) * c = a * (b * c)` for all matrices a, b, c; hence the transform
`Translate * Rotation * Scale` that `DrawModelPro` evaluates left to right
equals the same product grouped to the right. -/
theorem operator_mul_assoc {α β : Type} [CommRing α] [LinearOrderedField β] :
    (∀ a b c : Matrix α, (a * b) * c = a * (b * c)) ∧
    (∀ (L : LibM β) (position : Vector3 β) (rotation : Quaternion β) (scale : β)
        (mode : String),
      DrawModelPro.transformMatrix L position rotation scale mode
        = MatrixTranslate position.x position.y position.z
            * (DrawModelPro.rotationMatrix L rotation mode
                * MatrixScale (scale * (1 / 10)) (scale * (1 / 10)) (scale * (1 / 10)))) := by
  constructor
  · intro a b c
    exact mul_assoc_fields a b c
  · intro L position rotation scale mode
    simp only [DrawModelPro.transformMatrix]
    exact mul_assoc_fields _ _ _

/-- C10: for a rotation matrix R whose fourth row and fourth column are
(0, 0, 0, 1), the product `Translate(p) * R * Scale(s, s, s)` has translation
fields (m12, m13, m14) = p, fourth row (m3, m7, m11, m15) = (0, 0, 0, 1), and an
upper-left 3x3 block equal to s times the one of R. -/
theorem translate_rotate_scale_shape {α : Type} [CommRing α] (p : Vector3 α) (s : α)
    (R : Matrix α)
    (hrow : R.m3 = 0 ∧ R.m7 = 0 ∧ R.m11 = 0 ∧ R.m15 = 1)
    (hcol : R.m12 = 0 ∧ R.m13 = 0 ∧ R.m14 = 0) :
    MatrixTranslate p.x p.y p.z * R * MatrixScale s s s =
      { m0 := s * R.m0, m4 := s * R.m4, m8 := s * R.m8, m12 := p.x
        m1 := s * R.m1, m5 := s * R.m5, m9 := s * R.m9, m13 := p.y
        m2 := s * R.m2, m6 := s * R.m6, m10 := s * R.m10, m14 := p.z
        m3 := 0, m7 := 0, m11 := 0, m15 := 1 } := by
  obtain ⟨h3, h7, h11, h15⟩ := hrow
  obtain ⟨h12, h13, h14⟩ := hcol
  apply Matrix.ext_fields <;>
    (simp only [mul_def, Matrix.mul, MatrixTranslate, MatrixScale, h3, h7, h11, h15,
      h12, h13, h14]; ring)

/-- Witness for C10: translation (1, 2, 3), a quarter turn about Z, scale 2. -/
theorem translate_rotate_scale_shape_witness :
    MatrixTranslate (1 : ℤ) 2 3
        * { m0 := 0, m4 := -1, m8 := 0, m12 := 0
            m1 := 1, m5 := 0, m9 := 0, m13 := 0
            m2 := 0, m6 := 0, m10 := 1, m14 := 0
            m3 := 0, m7 := 0, m11 := 0, m15 := 1 }
        * MatrixScale 2 2 2 =
      { m0 := 0, m4 := -2, m8 := 0, m12 := 1
        m1 := 2, m5 := 0, m9 := 0, m13 := 2
        m2 := 0, m6 := 0, m10 := 2, m14 := 3
        m3 := 0, m7 := 0, m11 := 0, m15 := 1 } :=
  translate_rotate_scale_shape (⟨1, 2, 3⟩ : Vector3 ℤ) 2
    { m0 := 0, m4 := -1, m8 := 0, m12 := 0
      m1 := 1, m5 := 0, m9 := 0, m13 := 0
      m2 := 0, m6 := 0, m10 := 1, m14 := 0
      m3 := 0, m7 := 0, m11 := 0, m15 := 1 }
    (by decide) (by decide)

/-- C4: with the real library functions (and whatever a division by zero may
yield), the identity quaternion (x = 0, y = 0, z = 0, w = 1) gives the identity
rotation matrix both in "Quaternion" mode and in "Axis Angle" mode. -/
theorem identity_quaternion_rotation (L : LibM ℝ) (hL : IsRealMath L) :
    DrawModelPro.rotationMatrix L ⟨0, 0, 0, 1⟩ "Quaternion" = MatrixIdentity ∧
    DrawModelPro.rotationMatrix L ⟨0, 0, 0, 1⟩ "Axis Angle" = MatrixIdentity := by
  obtain ⟨sq, sn, cs, asn, acs, at2, dv⟩ := L
  obtain ⟨h1, h2, h3, h4, h5, h6, hd⟩ := hL
  simp only at h1 h2 h3 h4 h5 h6 hd
  subst h1 h2 h3 h4 h5 h6
  have hd11 : dv 1 1 = 1 := by rw [hd 1 1 one_ne_zero, div_one]
  constructor
  · rw [rotationMatrix_quaternion]
    simp [QuaternionNormalize, QuaternionToMatrix, MatrixIdentity, hd11]
  · rw [rotationMatrix_axisAngle]
    have hax : QuaternionToAxisAngle
        (⟨Real.sqrt, Real.sin, Real.cos, Real.arcsin, Real.arccos,
          fun y x => Complex.arg ⟨x, y⟩, dv⟩ : LibM ℝ) ⟨0, 0, 0, 1⟩
        = (⟨1, 0, 0⟩, 0) := by
      norm_num [QuaternionToAxisAngle]
    have hq : QuaternionFromAxisAngle
        (⟨Real.sqrt, Real.sin, Real.cos, Real.arcsin, Real.arccos,
          fun y x => Complex.arg ⟨x, y⟩, dv⟩ : LibM ℝ) ⟨1, 0, 0⟩ 0 = ⟨0, 0, 0, 1⟩ := by
      simp [QuaternionFromAxisAngle, hd11]
    rw [hax, hq]
    simp [QuaternionToMatrix, MatrixIdentity]

/-- Witness for C4: the real library functions themselves. -/
theorem identity_quaternion_rotation_witness :
    IsRealMath ⟨Real.sqrt, Real.sin, Real.cos, Real.arcsin, Real.arccos,
      fun y x => Complex.arg ⟨x, y⟩, fun a b => a / b⟩ ∧
    DrawModelPro.rotationMatrix
      ⟨Real.sqrt, Real.sin, Real.cos, Real.arcsin, Real.arccos,
        fun y x => Complex.arg ⟨x, y⟩, fun a b => a / b⟩
      ⟨0, 0, 0, 1⟩ "Quaternion" = MatrixIdentity :=
  ⟨⟨rfl, rfl, rfl, rfl, rfl, rfl, fun _ _ _ => rfl⟩,
   (identity_quaternion_rotation _ ⟨rfl, rfl, rfl, rfl, rfl, rfl, fun _ _ _ => rfl⟩).1⟩

/-- C3, as stated, fails: on the demo's first frame (position 0, all-zero
rotation, scale argument 1, mode "ZYX Euler") the composed transform is not
Translate · Rotate · Scale built from the scale argument as passed in. -/
theorem transform_scale_not_as_passed :
    DrawModelPro.transformMatrix
        (⟨Real.sqrt, Real.sin, Real.cos, Real.arcsin, Real.arccos,
          fun y x => Complex.arg ⟨x, y⟩, fun a b => a / b⟩ : LibM ℝ)
        ⟨0, 0, 0⟩ ⟨0, 0, 0, 0⟩ 1 "ZYX Euler"
      ≠ MatrixTranslate 0 0 0
          * DrawModelPro.rotationMatrix
              (⟨Real.sqrt, Real.sin, Real.cos, Real.arcsin, Real.arccos,
                fun y x => Complex.arg ⟨x, y⟩, fun a b => a / b⟩ : LibM ℝ)
              ⟨0, 0, 0, 0⟩ "ZYX Euler"
          * MatrixScale 1 1 1 := by
  have harg : Complex.arg ⟨1, 0⟩ = 0 := by
    have : (⟨1, 0⟩ : ℂ) = 1 := rfl
    rw [this, Complex.arg_one]
  have hn : QuaternionNormalize
      (⟨Real.sqrt, Real.sin, Real.cos, Real.arcsin, Real.arccos,
        fun y x => Complex.arg ⟨x, y⟩, fun a b => a / b⟩ : LibM ℝ) ⟨0, 0, 0, 0⟩
      = ⟨0, 0, 0, 0⟩ := by
    simp [QuaternionNormalize]
  have hR : DrawModelPro.rotationMatrix
      (⟨Real.sqrt, Real.sin, Real.cos, Real.arcsin, Real.arccos,
        fun y x => Complex.arg ⟨x, y⟩, fun a b => a / b⟩ : LibM ℝ)
      ⟨0, 0, 0, 0⟩ "ZYX Euler"
      = MatrixIdentity := by
    rw [rotationMatrix_zyx, hn]
    norm_num [QuaternionToEuler, MatrixRotateZYX, MatrixIdentity, harg]
  intro h
  simp only [DrawModelPro.transformMatrix] at h
  rw [hR] at h
  have h0 := congrArg Matrix.m0 h
  norm_num [MatrixTranslate, MatrixScale, MatrixIdentity, mul_def, Matrix.mul] at h0

/-- C3, amended: for every position, rotation value, scale argument and mode,
the transform `DrawModelPro` composes is Translate(position) · Rotate(rotation,
mode) · Scale(scale / 10): the uniform scale matrix is built from one tenth of
the scale argument.  The product is the mathematical matrix product, and the
rotation is the one the mode selects. -/
theorem transform_is_translate_rotate_tenth_scale {α : Type} [LinearOrderedField α]
    (L : LibM α) (position : Vector3 α) (rotation : Quaternion α) (scale : α)
    (mode : String) :
    (DrawModelPro.transformMatrix L position rotation scale mode).toMat4
      = (MatrixTranslate position.x position.y position.z).toMat4
          * (DrawModelPro.rotationMatrix L rotation mode).toMat4
          * (MatrixScale (scale / 10) (scale / 10) (scale / 10)).toMat4
    ∧ DrawModelPro.rotationMatrix L rotation "ZYX Euler"
        = MatrixRotateZYX L (QuaternionToEuler L (QuaternionNormalize L rotation))
    ∧ DrawModelPro.rotationMatrix L rotation "Quaternion"
        = QuaternionToMatrix (QuaternionNormalize L rotation)
    ∧ DrawModelPro.rotationMatrix L rotation "Axis Angle"
        = QuaternionToMatrix (QuaternionFromAxisAngle L
            (QuaternionToAxisAngle L rotation).1 (QuaternionToAxisAngle L rotation).2) := by
  refine ⟨?_, ?_, ?_, ?_⟩
  · have hs : scale * (1 / 10) = scale / 10 := by ring
    simp only [DrawModelPro.transformMatrix, toMat4_mul, hs]
  · simp [DrawModelPro.rotationMatrix]
  · simp [DrawModelPro.rotationMatrix]
  · simp [DrawModelPro.rotationMatrix]

/-- C6: `operator *` is order-sensitive.  With T the translation by (1, 0, 0)
and R the quarter turn about Z (the rotation matrix of the quaternion
(0, 0, sin 45°, cos 45°)), `T * R` differs from `R * T`, and the two products
send the non-origin point (1, 0, 0) to different points. -/
theorem operator_mul_order_sensitive :
    ∃ (p v : Vector3 ℝ) (R : Matrix ℝ),
      p ≠ ⟨0, 0, 0⟩ ∧ v ≠ ⟨0, 0, 0⟩ ∧
      R = QuaternionToMatrix ⟨0, 0, Real.sqrt 2 / 2, Real.sqrt 2 / 2⟩ ∧
      R = { m0 := 0, m4 := -1, m8 := 0, m12 := 0
            m1 := 1, m5 := 0, m9 := 0, m13 := 0
            m2 := 0, m6 := 0, m10 := 1, m14 := 0
            m3 := 0, m7 := 0, m11 := 0, m15 := 1 } ∧
      MatrixTranslate p.x p.y p.z * R ≠ R * MatrixTranslate p.x p.y p.z ∧
      Vector3Transform v (MatrixTranslate p.x p.y p.z * R)
        ≠ Vector3Transform v (R * MatrixTranslate p.x p.y p.z) := by
  have hs : Real.sqrt 2 / 2 * (Real.sqrt 2 / 2) = 1 / 2 := by
    have h2 : Real.sqrt 2 * Real.sqrt 2 = 2 := Real.mul_self_sqrt (by norm_num)
    nlinarith [h2]
  have hR : QuaternionToMatrix (⟨0, 0, Real.sqrt 2 / 2, Real.sqrt 2 / 2⟩ : Quaternion ℝ)
      = { m0 := 0, m4 := -1, m8 := 0, m12 := 0
          m1 := 1, m5 := 0, m9 := 0, m13 := 0
          m2 := 0, m6 := 0, m10 := 1, m14 := 0
          m3 := 0, m7 := 0, m11 := 0, m15 := 1 } := by
    apply Matrix.ext_fields <;> norm_num [QuaternionToMatrix, MatrixIdentity, hs]
  refine ⟨⟨1, 0, 0⟩, ⟨1, 0, 0⟩, _, ?_, ?_, rfl, hR, ?_, ?_⟩
  · intro h
    have := congrArg Vector3.x h
    norm_num at this
  · intro h
    have := congrArg Vector3.x h
    norm_num at this
  · rw [hR]
    intro h
    have := congrArg Matrix.m12 h
    norm_num [mul_def, Matrix.mul, MatrixTranslate] at this
  · rw [hR]
    intro h
    have := congrArg Vector3.x h
    norm_num [mul_def, Matrix.mul, MatrixTranslate, Vector3Transform] at this

/-- C7: the GUI keeps every editable parameter within its slider bounds.  From
the initial state, after any sequence of frames (either GUI branch, RESET
pressed or not) in which every slider call returns a value inside the bounds it
was given, each position component lies in [-10, 10], each of the four rotation
components in [-180, 180], the box scale in [1, 8], the light speed in [0.2, 2]
and the light height in [-2, 5]. -/
theorem gui_parameters_stay_in_bounds {α : Type} [LinearOrderedField α]
    (inputs : List (FrameInput α)) (hi : ∀ i ∈ inputs, SliderInRange i) :
    InBounds (run inputs) :=
  foldl_frame_inBounds inputs initialState initialState_inBounds hi

/-- Witness for C7: two frames whose sliders clamp a dragged value into range,
the first in the "ZYX Euler" branch, the second in the "Quaternion" branch with
RESET pressed. -/
theorem gui_parameters_stay_in_bounds_witness :
    (∀ i ∈ ([⟨1, 0, 0, fun _ v lo hi => max lo (min hi (v + 7)), false⟩,
             ⟨0, 1, 1, fun _ v lo hi => max lo (min hi (v - 300)), true⟩] :
            List (FrameInput ℚ)), SliderInRange i) ∧
    InBounds (run ([⟨1, 0, 0, fun _ v lo hi => max lo (min hi (v + 7)), false⟩,
                    ⟨0, 1, 1, fun _ v lo hi => max lo (min hi (v - 300)), true⟩] :
                   List (FrameInput ℚ))) := by
  have h : ∀ i ∈ ([⟨1, 0, 0, fun _ v lo hi => max lo (min hi (v + 7)), false⟩,
             ⟨0, 1, 1, fun _ v lo hi => max lo (min hi (v - 300)), true⟩] :
            List (FrameInput ℚ)), SliderInRange i := by
    intro i hmem
    simp only [List.mem_cons, List.mem_singleton, List.not_mem_nil, or_false] at hmem
    rcases hmem with rfl | rfl <;>
      (intro label value lo hi hle
       exact ⟨le_max_left _ _, max_le hle (min_le_left _ _)⟩)
  exact ⟨h, gui_parameters_stay_in_bounds _ h⟩

/-- C5, amended: with the real library functions, for every unit-length
rotation value q that is not at gimbal lock (|2(w·y − z·x)| < 1), the rotation
matrix of "ZYX Euler" mode equals the one of "Quaternion" mode. -/
theorem euler_mode_eq_quaternion_mode (L : LibM ℝ) (hL : IsRealMath L) (q : Quaternion ℝ)
    (hq : q.x * q.x + q.y * q.y + q.z * q.z + q.w * q.w = 1)
    (hg : |2 * (q.w * q.y - q.z * q.x)| < 1) :
    DrawModelPro.rotationMatrix L q "ZYX Euler"
      = DrawModelPro.rotationMatrix L q "Quaternion" := by
  obtain ⟨sq, sn, cs, asn, acs, at2, dv⟩ := L
  obtain ⟨h1, h2, h3, h4, h5, h6, hd⟩ := hL
  simp only at h1 h2 h3 h4 h5 h6 hd
  subst h1 h2 h3 h4 h5 h6
  have hd11 : dv 1 1 = 1 := by rw [hd 1 1 one_ne_zero, div_one]
  obtain ⟨x, y, z, w⟩ := q
  simp only at hq hg
  rw [rotationMatrix_zyx, rotationMatrix_quaternion]
  have hn : QuaternionNormalize
      (⟨Real.sqrt, Real.sin, Real.cos, Real.arcsin, Real.arccos,
        fun y x => Complex.arg ⟨x, y⟩, dv⟩ : LibM ℝ) ⟨x, y, z, w⟩ = ⟨x, y, z, w⟩ := by
    simp [QuaternionNormalize, hq, hd11]
  rw [hn]
  obtain ⟨hlo, hhi⟩ := abs_lt.mp hg
  have hpos : 0 < 1 - 2 * (w * y - z * x) * (2 * (w * y - z * x)) := by nlinarith
  have hc : 0 < Real.sqrt (1 - 2 * (w * y - z * x) * (2 * (w * y - z * x))) :=
    Real.sqrt_pos.mpr hpos
  have hcc : Real.sqrt (1 - 2 * (w * y - z * x) * (2 * (w * y - z * x)))
      * Real.sqrt (1 - 2 * (w * y - z * x) * (2 * (w * y - z * x)))
      = 1 - 2 * (w * y - z * x) * (2 * (w * y - z * x)) := Real.mul_self_sqrt hpos.le
  obtain ⟨k4, k8, k5, k9, kx, kz⟩ := euler_key x y z w 1 hq.symm
  obtain ⟨hcx, hsx⟩ := cos_sin_arg_mk (1 - 2 * (x * x + y * y)) (2 * (w * x + y * z))
    (Real.sqrt (1 - 2 * (w * y - z * x) * (2 * (w * y - z * x)))) hc (by rw [hcc]; linarith)
  obtain ⟨hcz, hsz⟩ := cos_sin_arg_mk (1 - 2 * (y * y + z * z)) (2 * (w * z + x * y))
    (Real.sqrt (1 - 2 * (w * y - z * x) * (2 * (w * y - z * x)))) hc (by rw [hcc]; linarith)
  have hsy : Real.sin (Real.arcsin (2 * (w * y - z * x))) = 2 * (w * y - z * x) :=
    Real.sin_arcsin hlo.le hhi.le
  have hcy : Real.cos (Real.arcsin (2 * (w * y - z * x)))
      = Real.sqrt (1 - 2 * (w * y - z * x) * (2 * (w * y - z * x))) := by
    rw [Real.cos_arcsin]
    congr 1
    ring
  have he : QuaternionToEuler
      (⟨Real.sqrt, Real.sin, Real.cos, Real.arcsin, Real.arccos,
        fun y x => Complex.arg ⟨x, y⟩, dv⟩ : LibM ℝ) ⟨x, y, z, w⟩
      = ⟨Complex.arg ⟨1 - 2 * (x * x + y * y), 2 * (w * x + y * z)⟩,
         Real.arcsin (2 * (w * y - z * x)),
         Complex.arg ⟨1 - 2 * (y * y + z * z), 2 * (w * z + x * y)⟩⟩ := by
    simp only [QuaternionToEuler]
    rw [if_neg (not_lt.mpr hhi.le), if_neg (not_lt.mpr hlo.le)]
  rw [he]
  have hne := hc.ne.symm
  simp only [MatrixRotateZYX, QuaternionToMatrix, MatrixIdentity, hcx, hsx, hcz, hsz,
    hsy, hcy]
  generalize Real.sqrt (1 - 2 * (w * y - z * x) * (2 * (w * y - z * x))) = c at hc hcc hne
  clear hcx hsx hcz hsz hsy hcy he hn kx kz
  rw [Matrix.mk.injEq]
  refine ⟨?_, ?_, ?_, rfl, ?_, ?_, ?_, rfl, ?_, ?_, ?_, rfl, rfl, rfl, rfl, rfl⟩
  · field_simp
  · field_simp
    linear_combination k4 - 2 * (x * y - w * z) * hcc
  · field_simp
    linear_combination k8 - 2 * (x * z + w * y) * hcc
  · field_simp
    ring
  · field_simp
    linear_combination k5 - (1 - 2 * (x * x + z * z)) * hcc
  · field_simp
    linear_combination k9 - 2 * (y * z - w * x) * hcc
  · ring
  · field_simp
    ring
  · field_simp

/-- Witness for C5: the quaternion of the quarter turn about Z,
(x = 0, y = 0, z = sin 45°, w = cos 45°), written with √2/2. -/
theorem euler_mode_eq_quaternion_mode_witness :
    IsRealMath ⟨Real.sqrt, Real.sin, Real.cos, Real.arcsin, Real.arccos,
      fun y x => Complex.arg ⟨x, y⟩, fun a b => a / b⟩ ∧
    DrawModelPro.rotationMatrix
        (⟨Real.sqrt, Real.sin, Real.cos, Real.arcsin, Real.arccos,
          fun y x => Complex.arg ⟨x, y⟩, fun a b => a / b⟩ : LibM ℝ)
        ⟨0, 0, Real.sqrt 2 / 2, Real.sqrt 2 / 2⟩ "ZYX Euler"
      = DrawModelPro.rotationMatrix
        (⟨Real.sqrt, Real.sin, Real.cos, Real.arcsin, Real.arccos,
          fun y x => Complex.arg ⟨x, y⟩, fun a b => a / b⟩ : LibM ℝ)
        ⟨0, 0, Real.sqrt 2 / 2, Real.sqrt 2 / 2⟩ "Quaternion" := by
  have h2 : Real.sqrt 2 * Real.sqrt 2 = 2 := Real.mul_self_sqrt (by norm_num)
  refine ⟨⟨rfl, rfl, rfl, rfl, rfl, rfl, fun _ _ _ => rfl⟩,
    euler_mode_eq_quaternion_mode _ ⟨rfl, rfl, rfl, rfl, rfl, rfl, fun _ _ _ => rfl⟩ _ ?_ ?_⟩
  · simp only
    nlinarith [h2]
  · simp only
    norm_num

/-- C5, as stated, fails at gimbal lock: the unit-length rotation value
(x = -1/2, y = 1/2, z = 1/2, w = 1/2) gives different rotation matrices in
"ZYX Euler" mode and in "Quaternion" mode. -/
theorem euler_mode_differs_at_gimbal_lock :
    ((-1 / 2 : ℝ) * (-1 / 2) + 1 / 2 * (1 / 2) + 1 / 2 * (1 / 2) + 1 / 2 * (1 / 2) = 1) ∧
    DrawModelPro.rotationMatrix
        (⟨Real.sqrt, Real.sin, Real.cos, Real.arcsin, Real.arccos,
          fun y x => Complex.arg ⟨x, y⟩, fun a b => a / b⟩ : LibM ℝ)
        ⟨-1 / 2, 1 / 2, 1 / 2, 1 / 2⟩ "ZYX Euler"
      ≠ DrawModelPro.rotationMatrix
        (⟨Real.sqrt, Real.sin, Real.cos, Real.arcsin, Real.arccos,
          fun y x => Complex.arg ⟨x, y⟩, fun a b => a / b⟩ : LibM ℝ)
        ⟨-1 / 2, 1 / 2, 1 / 2, 1 / 2⟩ "Quaternion" := by
  refine ⟨by norm_num, ?_⟩
  rw [rotationMatrix_zyx, rotationMatrix_quaternion]
  have hone : ((-1 / 2 : ℝ) * (-1 / 2) + 1 / 2 * (1 / 2) + 1 / 2 * (1 / 2) + 1 / 2 * (1 / 2))
      = 1 := by norm_num
  have hn : QuaternionNormalize
      (⟨Real.sqrt, Real.sin, Real.cos, Real.arcsin, Real.arccos,
        fun y x => Complex.arg ⟨x, y⟩, fun a b => a / b⟩ : LibM ℝ) ⟨-1 / 2, 1 / 2, 1 / 2, 1 / 2⟩
      = ⟨-1 / 2, 1 / 2, 1 / 2, 1 / 2⟩ := by
    simp only [QuaternionNormalize, hone]
    norm_num
  rw [hn]
  have harg : Complex.arg ⟨0, 0⟩ = 0 := by
    have : (⟨0, 0⟩ : ℂ) = 0 := rfl
    rw [this, Complex.arg_zero]
  have he : QuaternionToEuler
      (⟨Real.sqrt, Real.sin, Real.cos, Real.arcsin, Real.arccos,
        fun y x => Complex.arg ⟨x, y⟩, fun a b => a / b⟩ : LibM ℝ) ⟨-1 / 2, 1 / 2, 1 / 2, 1 / 2⟩
      = ⟨0, Real.pi / 2, 0⟩ := by
    simp only [QuaternionToEuler]
    norm_num [harg]
  rw [he]
  intro h
  have h4 := congrArg Matrix.m4 h
  norm_num [MatrixRotateZYX, QuaternionToMatrix, MatrixIdentity] at h4

end Rotation3D
